import Mathlib

/-!
Shallow embedding of the Price Monitoring & Alert Decision Engine of the
hypemonitoring repository (src/config.py, src/price_analyzer.py,
src/telegram_alerter.py, src/telegram_bot.py).

Prices are modelled as real numbers, time instants (in minutes) as
rationals.  The `PriceAnalyzer` instance state is its `price_history`
list; the `TelegramAlerter` instance state is its optional
`last_alert_time`.  Delivery of a message over the network is modelled
by an explicit boolean parameter (`delivered`): the Python code wraps
the network call in try/except, returning `False` and leaving the state
untouched on an exception, and recording `datetime.now()` on success.
-/

namespace Hype

/-! Configuration constants from src/config.py. -/

/-- Configuration: `TARGET_PRICE = 41.0` from config.py. -/
def TARGET_PRICE : ℝ := 41

/-- Configuration: `STANDARD_DEVIATIONS = 2.0` from config.py. -/
def STANDARD_DEVIATIONS : ℝ := 2

/-- Configuration: `ALERT_THRESHOLD = 0.7` from config.py. -/
def ALERT_THRESHOLD : ℝ := 0.7

/-- Configuration: `ENABLE_VOICE_MESSAGES = True` from config.py. -/
def ENABLE_VOICE_MESSAGES : Bool := true

/-- Configuration: `ENABLE_TEXT_ALERTS = True` from config.py. -/
def ENABLE_TEXT_ALERTS : Bool := true

/-- Configuration: `ALERT_COOLDOWN_MINUTES = 5` from config.py. -/
def ALERT_COOLDOWN_MINUTES : ℚ := 5

/-- Configuration: `URGENT_ALERT_COOLDOWN_MINUTES = 1` from config.py. -/
def URGENT_ALERT_COOLDOWN_MINUTES : ℚ := 1

/-- Configuration: `CRITICAL_PRICE_THRESHOLD = 41.5` from config.py. -/
def CRITICAL_PRICE_THRESHOLD : ℝ := 41.5

/-- Configuration: `STRONG_DOWNTREND_THRESHOLD = 0.85` from config.py. -/
def STRONG_DOWNTREND_THRESHOLD : ℝ := 0.85

/-! The rolling price history (PriceAnalyzer.add_price). -/

/-- Embedding of `PriceAnalyzer.add_price` (price_analyzer.py lines 16-21):
append the price, then keep only the last 100 entries
(`self.price_history = self.price_history[-100:]`) when the length
exceeds 100.  The Python method mutates `self.price_history`; the
embedding maps the old history to the new one. -/
def add_price (history : List ℝ) (price : ℝ) : List ℝ :=
  let h := history ++ [price]
  if h.length > 100 then h.drop (h.length - 100) else h

/-- Running a whole sequence of `add_price` calls from a given
starting history, in arrival order. -/
def run_add_prices (history : List ℝ) (prices : List ℝ) : List ℝ :=
  prices.foldl add_price history

lemma add_price_eq_drop (h : List ℝ) (p : ℝ) :
    add_price h p = (h ++ [p]).drop ((h ++ [p]).length - 100) := by
  unfold add_price
  by_cases hl : (h ++ [p]).length > 100
  · simp only [hl, if_true]
  · have h0 : (h ++ [p]).length - 100 = 0 := by omega
    rw [if_neg hl, h0, List.drop_zero]

lemma length_add_price_le (h : List ℝ) (p : ℝ) :
    (add_price h p).length ≤ 100 := by
  rw [add_price_eq_drop]
  simp only [List.length_drop]
  omega

lemma run_add_prices_nil_eq_drop (ps : List ℝ) :
    run_add_prices [] ps = ps.drop (ps.length - 100) := by
  induction ps using List.reverseRecOn with
  | nil => simp [run_add_prices]
  | append_singleton ps p ih =>
      have hfold : run_add_prices [] (ps ++ [p])
          = add_price (run_add_prices [] ps) p := by
        simp [run_add_prices]
      rw [hfold, ih, add_price_eq_drop]
      by_cases hlen : ps.length ≤ 100
      · have h0 : ps.length - 100 = 0 := by omega
        simp only [h0, List.drop_zero]
      · have hdl : (ps.drop (ps.length - 100)).length = 100 := by
          simp only [List.length_drop]; omega
        have h1 : (ps.drop (ps.length - 100) ++ [p]).length - 100 = 1 := by
          simp only [List.length_append, hdl, List.length_singleton]
        rw [h1]
        have hds : (ps.drop (ps.length - 100) ++ [p]).drop 1
            = (ps.drop (ps.length - 100)).drop 1 ++ [p] := by
          rw [List.drop_append_of_le_length (by omega)]
        rw [hds, List.drop_drop]
        have h2 : (ps ++ [p]).length - 100 = (ps.length - 100) + 1 := by
          simp only [List.length_append, List.length_singleton]; omega
        rw [h2, List.drop_append_of_le_length (by omega)]

/-- C1 counterexample: `add_price` performs no validation at all.  The
non-positive price `-1` inserted into an empty history is appended
rather than refused, so the history does change and a non-positive
value enters it. -/
theorem add_price_accepts_nonpositive_cex :
    add_price ([] : List ℝ) (-1) = [-1] ∧ ¬ (0 : ℝ) < -1 := by
  constructor
  · simp [add_price]
  · norm_num

/-- C1 (amended): `add_price` appends every price unconditionally — no
finiteness or positivity check exists — and then trims the history to
its last 100 entries.  For any history and any price, the result is the
suffix of length `min 100 (length + 1)` of the appended list. -/
theorem add_price_appends_unconditionally (h : List ℝ) (p : ℝ) :
    add_price h p = (h ++ [p]).drop ((h ++ [p]).length - 100) :=
  add_price_eq_drop h p

/-- C2: starting from the empty history, any sequence of `add_price`
calls leaves at most 100 entries, and the contents are exactly the last
`min 100 (total inserts)` inserted values in arrival order (the drop of
all but the final 100). -/
theorem history_bounded_fifo (ps : List ℝ) :
    (run_add_prices [] ps).length ≤ 100
      ∧ run_add_prices [] ps = ps.drop (ps.length - 100) := by
  refine ⟨?_, run_add_prices_nil_eq_drop ps⟩
  rw [run_add_prices_nil_eq_drop]
  simp only [List.length_drop]
  omega

/-! Statistics (PriceAnalyzer.calculate_statistics, lines 23-41). -/

/-- Arithmetic mean of a list of prices, as computed by `np.mean`. -/
noncomputable def listMean (l : List ℝ) : ℝ := l.sum / l.length

/-- Population variance (mean of squared deviations from the mean),
the quantity under the square root in `np.std` (which divides by N,
not N-1, by default). -/
noncomputable def listVar (l : List ℝ) : ℝ :=
  (l.map (fun x => (x - listMean l) ^ 2)).sum / l.length

/-- Population standard deviation, as computed by `np.std`. -/
noncomputable def listStd (l : List ℝ) : ℝ := Real.sqrt (listVar l)

/-- Minimum of a list of prices, as computed by `np.min` on a nonempty
array (the `0` default for `[]` is never reached by the callers). -/
noncomputable def listMin : List ℝ → ℝ
  | [] => 0
  | x :: xs => xs.foldl min x

/-- Maximum of a list of prices, as computed by `np.max` on a nonempty
array (the `0` default for `[]` is never reached by the callers). -/
noncomputable def listMax : List ℝ → ℝ
  | [] => 0
  | x :: xs => xs.foldl max x

/-- The statistics dictionary returned by
`PriceAnalyzer.calculate_statistics`. -/
structure Stats where
  mean : ℝ
  std : ℝ
  min : ℝ
  max : ℝ
  current : ℝ

/-- Embedding of `PriceAnalyzer.calculate_statistics` (price_analyzer.py
lines 23-41): the all-zero sentinel when fewer than 5 prices are
recorded, otherwise mean, population standard deviation, min, max over
the whole history and `current = prices[-1]`. -/
noncomputable def calculate_statistics (l : List ℝ) : Stats :=
  if l.length < 5 then ⟨0, 0, 0, 0, 0⟩
  else ⟨listMean l, listStd l, listMin l, listMax l, l.getLastD 0⟩

lemma foldl_min_le_init (xs : List ℝ) (a : ℝ) : xs.foldl min a ≤ a := by
  induction xs generalizing a with
  | nil => exact le_refl a
  | cons x xs ih =>
      calc (x :: xs).foldl min a = xs.foldl min (min a x) := rfl
        _ ≤ min a x := ih (min a x)
        _ ≤ a := min_le_left a x

lemma foldl_min_le_mem (xs : List ℝ) (a x : ℝ) (hx : x ∈ xs) :
    xs.foldl min a ≤ x := by
  induction xs generalizing a with
  | nil => cases hx
  | cons y ys ih =>
      rcases List.mem_cons.mp hx with h | h
      · subst h
        calc (x :: ys).foldl min a = ys.foldl min (min a x) := rfl
          _ ≤ min a x := foldl_min_le_init ys (min a x)
          _ ≤ x := min_le_right a x
      · exact ih (min a y) h

lemma init_le_foldl_max (xs : List ℝ) (a : ℝ) : a ≤ xs.foldl max a := by
  induction xs generalizing a with
  | nil => exact le_refl a
  | cons x xs ih =>
      calc a ≤ max a x := le_max_left a x
        _ ≤ xs.foldl max (max a x) := ih (max a x)
        _ = (x :: xs).foldl max a := rfl

lemma mem_le_foldl_max (xs : List ℝ) (a x : ℝ) (hx : x ∈ xs) :
    x ≤ xs.foldl max a := by
  induction xs generalizing a with
  | nil => cases hx
  | cons y ys ih =>
      rcases List.mem_cons.mp hx with h | h
      · subst h
        calc x ≤ max a x := le_max_right a x
          _ ≤ ys.foldl max (max a x) := init_le_foldl_max ys (max a x)
          _ = (x :: ys).foldl max a := rfl
      · exact ih (max a y) h

lemma listMin_le_mem (l : List ℝ) (x : ℝ) (hx : x ∈ l) : listMin l ≤ x := by
  cases l with
  | nil => cases hx
  | cons y ys =>
      rcases List.mem_cons.mp hx with h | h
      · subst h; exact foldl_min_le_init ys x
      · exact foldl_min_le_mem ys y x h

lemma mem_le_listMax (l : List ℝ) (x : ℝ) (hx : x ∈ l) : x ≤ listMax l := by
  cases l with
  | nil => cases hx
  | cons y ys =>
      rcases List.mem_cons.mp hx with h | h
      · subst h; exact init_le_foldl_max ys x
      · exact mem_le_foldl_max ys y x h

lemma listMin_le_listMean (l : List ℝ) (hl : l ≠ []) :
    listMin l ≤ listMean l := by
  have hlen : 0 < (l.length : ℝ) := by
    have : 0 < l.length := List.length_pos.mpr hl
    exact_mod_cast this
  have hsum : l.length • listMin l ≤ l.sum :=
    List.card_nsmul_le_sum l (listMin l) (fun x hx => listMin_le_mem l x hx)
  rw [nsmul_eq_mul] at hsum
  rw [listMean, le_div_iff₀ hlen]
  linarith [hsum]

lemma listMean_le_listMax (l : List ℝ) (hl : l ≠ []) :
    listMean l ≤ listMax l := by
  have hlen : 0 < (l.length : ℝ) := by
    have : 0 < l.length := List.length_pos.mpr hl
    exact_mod_cast this
  have hsum : l.sum ≤ l.length • listMax l :=
    List.sum_le_card_nsmul l (listMax l) (fun x hx => mem_le_listMax l x hx)
  rw [nsmul_eq_mul] at hsum
  rw [listMean, div_le_iff₀ hlen]
  linarith [hsum]

lemma getLastD_mem (l : List ℝ) (d : ℝ) (hl : l ≠ []) : l.getLastD d ∈ l := by
  induction l generalizing d with
  | nil => exact absurd rfl hl
  | cons a t ih =>
      cases t with
      | nil => simp [List.getLastD]
      | cons b t' =>
          have h1 : (b :: t').getLastD a ∈ b :: t' := ih a (by simp)
          simp only [List.getLastD_cons] at h1 ⊢
          exact List.mem_cons_of_mem a h1

/-- C7: `calculate_statistics` returns the all-zero sentinel for any
history of size 0-4; for size at least 5 it returns the arithmetic
mean, the population standard deviation (dividing by N), the minimum,
maximum and `current` = last element, and these satisfy
`min <= mean <= max` and `min <= current <= max`. -/
theorem calculate_statistics_spec (l : List ℝ) :
    (l.length < 5 → calculate_statistics l = ⟨0, 0, 0, 0, 0⟩)
    ∧ (5 ≤ l.length →
        calculate_statistics l
          = ⟨listMean l, listStd l, listMin l, listMax l, l.getLastD 0⟩
        ∧ listMin l ≤ listMean l ∧ listMean l ≤ listMax l
        ∧ listMin l ≤ l.getLastD 0 ∧ l.getLastD 0 ≤ listMax l) := by
  constructor
  · intro h
    unfold calculate_statistics
    rw [if_pos h]
  · intro h
    have hne : l ≠ [] := by
      intro h0
      rw [h0] at h
      simp at h
    have hnotlt : ¬ l.length < 5 := by omega
    refine ⟨by unfold calculate_statistics; rw [if_neg hnotlt], ?_, ?_, ?_, ?_⟩
    · exact listMin_le_listMean l hne
    · exact listMean_le_listMax l hne
    · exact listMin_le_mem l _ (getLastD_mem l 0 hne)
    · exact mem_le_listMax l _ (getLastD_mem l 0 hne)

/-- C7 witness: the concrete history `[1, 2, 3, 4, 5]` has size 5 and
its statistics satisfy the ordering constraints of the claim. -/
theorem calculate_statistics_spec_witness :
    5 ≤ ([1, 2, 3, 4, 5] : List ℝ).length
    ∧ (calculate_statistics [1, 2, 3, 4, 5]
        = ⟨listMean [1, 2, 3, 4, 5], listStd [1, 2, 3, 4, 5],
            listMin [1, 2, 3, 4, 5], listMax [1, 2, 3, 4, 5],
            ([1, 2, 3, 4, 5] : List ℝ).getLastD 0⟩
      ∧ listMin [1, 2, 3, 4, 5] ≤ listMean [1, 2, 3, 4, 5]
      ∧ listMean [1, 2, 3, 4, 5] ≤ listMax [1, 2, 3, 4, 5]
      ∧ listMin [1, 2, 3, 4, 5] ≤ ([1, 2, 3, 4, 5] : List ℝ).getLastD 0
      ∧ ([1, 2, 3, 4, 5] : List ℝ).getLastD 0 ≤ listMax [1, 2, 3, 4, 5]) :=
  ⟨by norm_num,
    (calculate_statistics_spec [1, 2, 3, 4, 5]).2 (by norm_num)⟩

/-! Breach probability (PriceAnalyzer.predict_price_drop_probability,
lines 43-70). -/

/-- The standard normal cumulative distribution function: the measure
that the standard Gaussian assigns to `(-inf, z]`.  This is the value
`norm.cdf(z)` of scipy (equivalently the error-function fallback
`0.5 * (1 + erf(z / sqrt 2))` of the source, which computes the same
function). -/
noncomputable def stdNormalCdf (z : ℝ) : ℝ :=
  ((ProbabilityTheory.gaussianReal 0 1) (Set.Iic z)).toReal

lemma stdNormalCdf_nonneg (z : ℝ) : 0 ≤ stdNormalCdf z :=
  ENNReal.toReal_nonneg

lemma stdNormalCdf_le_one (z : ℝ) : stdNormalCdf z ≤ 1 := by
  have h : (ProbabilityTheory.gaussianReal 0 1) (Set.Iic z) ≤ 1 :=
    MeasureTheory.prob_le_one
  have h2 := ENNReal.toReal_mono (by norm_num) h
  simpa using h2

/-- Embedding of `PriceAnalyzer.predict_price_drop_probability`
(price_analyzer.py lines 43-70): `0.0` for fewer than 10 prices, `0.0`
when the standard deviation is zero, otherwise the normal CDF at the
z-score `(target_price - mean) / std`. -/
noncomputable def predict_price_drop_probability
    (target_price : ℝ) (l : List ℝ) : ℝ :=
  if l.length < 10 then 0
  else if (calculate_statistics l).std = 0 then 0
  else stdNormalCdf
    ((target_price - (calculate_statistics l).mean)
      / (calculate_statistics l).std)

/-- C6: the drop probability is exactly 0 for histories of size below
10 and for zero standard deviation, is the standard normal CDF of the
z-score `(target - mean)/std` otherwise, and always lies in `[0, 1]`. -/
theorem predict_price_drop_probability_spec (target_price : ℝ) (l : List ℝ) :
    predict_price_drop_probability target_price l
      = (if l.length < 10 ∨ (calculate_statistics l).std = 0 then 0
          else stdNormalCdf
            ((target_price - (calculate_statistics l).mean)
              / (calculate_statistics l).std))
    ∧ 0 ≤ predict_price_drop_probability target_price l
    ∧ predict_price_drop_probability target_price l ≤ 1 := by
  have hb : 0 ≤ predict_price_drop_probability target_price l
      ∧ predict_price_drop_probability target_price l ≤ 1 := by
    unfold predict_price_drop_probability
    by_cases h10 : l.length < 10
    · rw [if_pos h10]; norm_num
    · rw [if_neg h10]
      by_cases hstd : (calculate_statistics l).std = 0
      · rw [if_pos hstd]; norm_num
      · rw [if_neg hstd]
        exact ⟨stdNormalCdf_nonneg _, stdNormalCdf_le_one _⟩
  refine ⟨?_, hb.1, hb.2⟩
  unfold predict_price_drop_probability
  by_cases h10 : l.length < 10
  · rw [if_pos h10, if_pos (Or.inl h10)]
  · by_cases hstd : (calculate_statistics l).std = 0
    · rw [if_neg h10, if_pos hstd, if_pos (Or.inr hstd)]
    · rw [if_neg h10, if_neg hstd, if_neg (not_or.mpr ⟨h10, hstd⟩)]

/-! Trend classification (PriceAnalyzer.get_price_trend, lines 131-155). -/

/-- The trend labels returned by `PriceAnalyzer.get_price_trend`. -/
inductive Trend where
  | strong_uptrend
  | uptrend
  | sideways
  | downtrend
  | strong_downtrend
  | insufficient_data
deriving DecidableEq

/-- Embedding of `PriceAnalyzer.get_price_trend` (price_analyzer.py
lines 131-155): `insufficient_data` below 10 prices, otherwise the
classification of the last price against the 5- and 10-observation
simple moving averages, tested in the source's order.  The inner
`recent.length < 2` test and the `else` branch of the `sma_5`
conditional are kept even though they are unreachable once
`l.length >= 10`. -/
noncomputable def get_price_trend (l : List ℝ) : Trend :=
  if l.length < 10 then .insufficient_data
  else
    let recent := l.drop (l.length - 10)
    if recent.length < 2 then .insufficient_data
    else
      let sma5 := if 5 ≤ recent.length
        then listMean (recent.drop (recent.length - 5)) else listMean recent
      let sma10 := listMean recent
      let current := recent.getLastD 0
      if current > sma5 ∧ sma5 > sma10 then .strong_uptrend
      else if current > sma5 then .uptrend
      else if current < sma5 ∧ sma5 < sma10 then .strong_downtrend
      else if current < sma5 then .downtrend
      else .sideways

lemma getLastD_drop (l : List ℝ) (n : ℕ) (d : ℝ) (h : n < l.length) :
    (l.drop n).getLastD d = l.getLastD d := by
  induction l generalizing n d with
  | nil => simp at h
  | cons a t ih =>
      cases n with
      | zero => rfl
      | succ m =>
          have hm : m < t.length := by
            simp only [List.length_cons] at h; omega
          have hdrop : ((a :: t).drop (m + 1)) = t.drop m := rfl
          rw [hdrop, ih m d hm]
          cases t with
          | nil => simp at hm
          | cons b t' => simp only [List.getLastD_cons]

/-- C8: `get_price_trend` returns `insufficient_data` below 10 prices;
for 10 or more it compares `current` (the last price) against `sma5`
(mean of the last 5 observations) and `sma10` (mean of the last 10) in
the source's exact priority order. -/
theorem get_price_trend_spec (l : List ℝ) :
    (l.length < 10 → get_price_trend l = Trend.insufficient_data)
    ∧ (10 ≤ l.length →
        (l.getLastD 0 > listMean (l.drop (l.length - 5))
            ∧ listMean (l.drop (l.length - 5)) > listMean (l.drop (l.length - 10))
          → get_price_trend l = Trend.strong_uptrend)
        ∧ (¬ (l.getLastD 0 > listMean (l.drop (l.length - 5))
            ∧ listMean (l.drop (l.length - 5)) > listMean (l.drop (l.length - 10)))
          → l.getLastD 0 > listMean (l.drop (l.length - 5))
          → get_price_trend l = Trend.uptrend)
        ∧ (¬ (l.getLastD 0 > listMean (l.drop (l.length - 5))
            ∧ listMean (l.drop (l.length - 5)) > listMean (l.drop (l.length - 10)))
          → ¬ l.getLastD 0 > listMean (l.drop (l.length - 5))
          → l.getLastD 0 < listMean (l.drop (l.length - 5))
            ∧ listMean (l.drop (l.length - 5)) < listMean (l.drop (l.length - 10))
          → get_price_trend l = Trend.strong_downtrend)
        ∧ (¬ (l.getLastD 0 > listMean (l.drop (l.length - 5))
            ∧ listMean (l.drop (l.length - 5)) > listMean (l.drop (l.length - 10)))
          → ¬ l.getLastD 0 > listMean (l.drop (l.length - 5))
          → ¬ (l.getLastD 0 < listMean (l.drop (l.length - 5))
            ∧ listMean (l.drop (l.length - 5)) < listMean (l.drop (l.length - 10)))
          → l.getLastD 0 < listMean (l.drop (l.length - 5))
          → get_price_trend l = Trend.downtrend)
        ∧ (¬ (l.getLastD 0 > listMean (l.drop (l.length - 5))
            ∧ listMean (l.drop (l.length - 5)) > listMean (l.drop (l.length - 10)))
          → ¬ l.getLastD 0 > listMean (l.drop (l.length - 5))
          → ¬ (l.getLastD 0 < listMean (l.drop (l.length - 5))
            ∧ listMean (l.drop (l.length - 5)) < listMean (l.drop (l.length - 10)))
          → ¬ l.getLastD 0 < listMean (l.drop (l.length - 5))
          → get_price_trend l = Trend.sideways)) := by
  constructor
  · intro h
    unfold get_price_trend
    rw [if_pos h]
  · intro h
    have h10 : ¬ l.length < 10 := by omega
    have hrl : (l.drop (l.length - 10)).length = 10 := by
      simp only [List.length_drop]; omega
    have hdd : (l.drop (l.length - 10)).drop ((l.drop (l.length - 10)).length - 5)
        = l.drop (l.length - 5) := by
      rw [hrl, List.drop_drop]
      congr 1
      omega
    have hcur : (l.drop (l.length - 10)).getLastD 0 = l.getLastD 0 :=
      getLastD_drop l (l.length - 10) 0 (by omega)
    have hform : get_price_trend l
        = (if l.getLastD 0 > listMean (l.drop (l.length - 5))
              ∧ listMean (l.drop (l.length - 5)) > listMean (l.drop (l.length - 10))
            then Trend.strong_uptrend
          else if l.getLastD 0 > listMean (l.drop (l.length - 5)) then Trend.uptrend
          else if l.getLastD 0 < listMean (l.drop (l.length - 5))
              ∧ listMean (l.drop (l.length - 5)) < listMean (l.drop (l.length - 10))
            then Trend.strong_downtrend
          else if l.getLastD 0 < listMean (l.drop (l.length - 5)) then Trend.downtrend
          else Trend.sideways) := by
      unfold get_price_trend
      rw [if_neg h10]
      simp only [hrl, hdd, hcur]
      norm_num
      rw [show l.length - 10 + 5 = l.length - 5 from by omega]
    refine ⟨?_, ?_, ?_, ?_, ?_⟩
    · intro h1
      rw [hform, if_pos h1]
    · intro h1 h2
      rw [hform, if_neg h1, if_pos h2]
    · intro h1 h2 h3
      rw [hform, if_neg h1, if_neg h2, if_pos h3]
    · intro h1 h2 h3 h4
      rw [hform, if_neg h1, if_neg h2, if_neg h3, if_pos h4]
    · intro h1 h2 h3 h4
      rw [hform, if_neg h1, if_neg h2, if_neg h3, if_neg h4]

/-- C8 witness: the decreasing-tail history
`[10,10,10,10,10,10,10,10,10,9]` classifies as `strong_downtrend`
(consistent with `current = 9 < sma5 = 9.8 < sma10 = 9.9`), and the
strictly flat history `[7,...,7]` classifies as `sideways`. -/
theorem get_price_trend_spec_witness :
    get_price_trend [10, 10, 10, 10, 10, 10, 10, 10, 10, 9]
        = Trend.strong_downtrend
    ∧ get_price_trend [7, 7, 7, 7, 7, 7, 7, 7, 7, 7] = Trend.sideways := by
  constructor
  · have h := (get_price_trend_spec
      [10, 10, 10, 10, 10, 10, 10, 10, 10, 9]).2 (by norm_num)
    have hlast : ([10, 10, 10, 10, 10, 10, 10, 10, 10, 9] : List ℝ).getLastD 0
        = 9 := rfl
    have hm5 : listMean (([10, 10, 10, 10, 10, 10, 10, 10, 10, 9] : List ℝ).drop
        (([10, 10, 10, 10, 10, 10, 10, 10, 10, 9] : List ℝ).length - 5))
        = 49 / 5 := by
      rw [show ([10, 10, 10, 10, 10, 10, 10, 10, 10, 9] : List ℝ).drop
        (([10, 10, 10, 10, 10, 10, 10, 10, 10, 9] : List ℝ).length - 5)
        = [10, 10, 10, 10, 9] from rfl]
      simp only [listMean, List.sum_cons, List.sum_nil, List.length_cons,
        List.length_nil]
      norm_num
    have hm10 : listMean (([10, 10, 10, 10, 10, 10, 10, 10, 10, 9] : List ℝ).drop
        (([10, 10, 10, 10, 10, 10, 10, 10, 10, 9] : List ℝ).length - 10))
        = 99 / 10 := by
      rw [show ([10, 10, 10, 10, 10, 10, 10, 10, 10, 9] : List ℝ).drop
        (([10, 10, 10, 10, 10, 10, 10, 10, 10, 9] : List ℝ).length - 10)
        = [10, 10, 10, 10, 10, 10, 10, 10, 10, 9] from rfl]
      simp only [listMean, List.sum_cons, List.sum_nil, List.length_cons,
        List.length_nil]
      norm_num
    refine h.2.2.1 ?_ ?_ ?_
    · rw [hlast, hm5, hm10]; norm_num
    · rw [hlast, hm5]; norm_num
    · rw [hlast, hm5, hm10]; norm_num
  · have h := (get_price_trend_spec
      [7, 7, 7, 7, 7, 7, 7, 7, 7, 7]).2 (by norm_num)
    have hlast : ([7, 7, 7, 7, 7, 7, 7, 7, 7, 7] : List ℝ).getLastD 0
        = 7 := rfl
    have hm5 : listMean (([7, 7, 7, 7, 7, 7, 7, 7, 7, 7] : List ℝ).drop
        (([7, 7, 7, 7, 7, 7, 7, 7, 7, 7] : List ℝ).length - 5)) = 7 := by
      rw [show ([7, 7, 7, 7, 7, 7, 7, 7, 7, 7] : List ℝ).drop
        (([7, 7, 7, 7, 7, 7, 7, 7, 7, 7] : List ℝ).length - 5)
        = [7, 7, 7, 7, 7] from rfl]
      simp only [listMean, List.sum_cons, List.sum_nil, List.length_cons,
        List.length_nil]
      norm_num
    have hm10 : listMean (([7, 7, 7, 7, 7, 7, 7, 7, 7, 7] : List ℝ).drop
        (([7, 7, 7, 7, 7, 7, 7, 7, 7, 7] : List ℝ).length - 10)) = 7 := by
      rw [show ([7, 7, 7, 7, 7, 7, 7, 7, 7, 7] : List ℝ).drop
        (([7, 7, 7, 7, 7, 7, 7, 7, 7, 7] : List ℝ).length - 10)
        = [7, 7, 7, 7, 7, 7, 7, 7, 7, 7] from rfl]
      simp only [listMean, List.sum_cons, List.sum_nil, List.length_cons,
        List.length_nil]
      norm_num
    refine h.2.2.2.2 ?_ ?_ ?_ ?_
    · rw [hlast, hm5, hm10]; norm_num
    · rw [hlast, hm5]; norm_num
    · rw [hlast, hm5, hm10]; norm_num
    · rw [hlast, hm5]; norm_num

/-! Alert decision (PriceAnalyzer.should_alert, lines 72-108, and
PriceAnalyzer.is_urgent_alert, lines 110-129). -/

/-- The `reason` values carried by the alert-info dictionary of
`PriceAnalyzer.should_alert`. -/
inductive AlertReason where
  | current_price_below_target
  | price_within_std_deviations
  | high_drop_probability
deriving DecidableEq

/-- Embedding of `PriceAnalyzer.should_alert` (price_analyzer.py lines
72-108): no alert below 5 prices; otherwise the three checks in source
order, short-circuiting on the first that fires, returning the reason
of the firing check (the Python pair `(False, {})` maps to `none` and
`(True, {reason: r, ...})` to `some r`). -/
noncomputable def should_alert (target_price std_deviations : ℝ)
    (l : List ℝ) : Option AlertReason :=
  if l.length < 5 then none
  else if (calculate_statistics l).current ≤ target_price then
    some .current_price_below_target
  else if (calculate_statistics l).current
      ≤ (calculate_statistics l).mean
        - std_deviations * (calculate_statistics l).std then
    some .price_within_std_deviations
  else if predict_price_drop_probability target_price l ≥ ALERT_THRESHOLD then
    some .high_drop_probability
  else none

/-- Embedding of `PriceAnalyzer.is_urgent_alert` (price_analyzer.py
lines 110-129): false below 5 prices, otherwise the disjunction of the
critical-price check, the strong-downtrend-with-high-probability
check, and the very-close-to-target check (the last two use the global
`TARGET_PRICE` and thresholds from config.py, not the instance's
target). -/
noncomputable def is_urgent_alert (target_price : ℝ) (l : List ℝ) : Bool :=
  if l.length < 5 then false
  else decide ((calculate_statistics l).current ≤ CRITICAL_PRICE_THRESHOLD
    ∨ (get_price_trend l = Trend.strong_downtrend
        ∧ predict_price_drop_probability target_price l
          ≥ STRONG_DOWNTREND_THRESHOLD)
    ∨ (calculate_statistics l).current ≤ TARGET_PRICE + 0.5)

/-- C3: `should_alert` yields no alert below 5 prices; at 5 or more it
tests, in order and short-circuiting, current-below-target, then the
standard-deviation band, then the drop probability against
`ALERT_THRESHOLD`; in particular equality with the target yields
reason `current_price_below_target`. -/
theorem should_alert_spec (target_price std_deviations : ℝ) (l : List ℝ) :
    (l.length < 5 → should_alert target_price std_deviations l = none)
    ∧ (5 ≤ l.length →
        ((calculate_statistics l).current ≤ target_price
          → should_alert target_price std_deviations l
              = some AlertReason.current_price_below_target)
        ∧ (¬ (calculate_statistics l).current ≤ target_price
          → (calculate_statistics l).current
              ≤ (calculate_statistics l).mean
                - std_deviations * (calculate_statistics l).std
          → should_alert target_price std_deviations l
              = some AlertReason.price_within_std_deviations)
        ∧ (¬ (calculate_statistics l).current ≤ target_price
          → ¬ (calculate_statistics l).current
              ≤ (calculate_statistics l).mean
                - std_deviations * (calculate_statistics l).std
          → predict_price_drop_probability target_price l ≥ ALERT_THRESHOLD
          → should_alert target_price std_deviations l
              = some AlertReason.high_drop_probability)
        ∧ (¬ (calculate_statistics l).current ≤ target_price
          → ¬ (calculate_statistics l).current
              ≤ (calculate_statistics l).mean
                - std_deviations * (calculate_statistics l).std
          → ¬ predict_price_drop_probability target_price l ≥ ALERT_THRESHOLD
          → should_alert target_price std_deviations l = none)) := by
  constructor
  · intro h
    unfold should_alert
    rw [if_pos h]
  · intro h
    have h5 : ¬ l.length < 5 := by omega
    refine ⟨?_, ?_, ?_, ?_⟩
    · intro h1
      unfold should_alert
      rw [if_neg h5, if_pos h1]
    · intro h1 h2
      unfold should_alert
      rw [if_neg h5, if_neg h1, if_pos h2]
    · intro h1 h2 h3
      unfold should_alert
      rw [if_neg h5, if_neg h1, if_neg h2, if_pos h3]
    · intro h1 h2 h3
      unfold should_alert
      rw [if_neg h5, if_neg h1, if_neg h2, if_neg h3]

/-- C3 witness: the five-price history `[42, 42, 42, 42, 41]` ends
exactly at the target 41, and the alert fires with reason
`current_price_below_target` (the tie goes to the first check). -/
theorem should_alert_spec_witness :
    5 ≤ ([42, 42, 42, 42, 41] : List ℝ).length
    ∧ (calculate_statistics [42, 42, 42, 42, 41]).current ≤ (41 : ℝ)
    ∧ should_alert 41 2 [42, 42, 42, 42, 41]
        = some AlertReason.current_price_below_target := by
  have hlen : ¬ ([42, 42, 42, 42, 41] : List ℝ).length < 5 := by norm_num
  have hcur : (calculate_statistics [42, 42, 42, 42, 41]).current = 41 := by
    unfold calculate_statistics
    rw [if_neg hlen]
    rfl
  refine ⟨by norm_num, by rw [hcur], ?_⟩
  exact ((should_alert_spec 41 2 [42, 42, 42, 42, 41]).2 (by norm_num)).1
    (by rw [hcur])

/-- C4: `is_urgent_alert` is false below 5 prices; at 5 or more it is
true exactly when the price is at or below the critical threshold, or
the trend is a strong downtrend with drop probability at or above the
strong-downtrend threshold, or the price is within 0.5 of the global
`TARGET_PRICE` — independently of which alert reason (if any) fired. -/
theorem is_urgent_alert_spec (target_price : ℝ) (l : List ℝ) :
    (l.length < 5 → is_urgent_alert target_price l = false)
    ∧ (5 ≤ l.length →
        (is_urgent_alert target_price l = true ↔
          (calculate_statistics l).current ≤ CRITICAL_PRICE_THRESHOLD
          ∨ (get_price_trend l = Trend.strong_downtrend
              ∧ predict_price_drop_probability target_price l
                ≥ STRONG_DOWNTREND_THRESHOLD)
          ∨ (calculate_statistics l).current ≤ TARGET_PRICE + 0.5)) := by
  constructor
  · intro h
    unfold is_urgent_alert
    rw [if_pos h]
  · intro h
    have h5 : ¬ l.length < 5 := by omega
    unfold is_urgent_alert
    rw [if_neg h5]
    exact decide_eq_true_iff

/-- C4 witness: for the history `[42, 42, 42, 42, 42, 40]` (five 42s
then 40) the alert fires with reason `current_price_below_target` and
the alert is urgent, since `40 <= TARGET_PRICE + 0.5 = 41.5`. -/
theorem is_urgent_alert_spec_witness :
    should_alert 41 2 [42, 42, 42, 42, 42, 40]
        = some AlertReason.current_price_below_target
    ∧ is_urgent_alert 41 [42, 42, 42, 42, 42, 40] = true := by
  have hlen : ¬ ([42, 42, 42, 42, 42, 40] : List ℝ).length < 5 := by norm_num
  have hcur : (calculate_statistics [42, 42, 42, 42, 42, 40]).current = 40 := by
    unfold calculate_statistics
    rw [if_neg hlen]
    rfl
  constructor
  · unfold should_alert
    rw [if_neg hlen, if_pos (by rw [hcur]; norm_num :
      (calculate_statistics [42, 42, 42, 42, 42, 40]).current ≤ (41 : ℝ))]
  · refine ((is_urgent_alert_spec 41 [42, 42, 42, 42, 42, 40]).2
      (by norm_num)).mpr ?_
    refine Or.inr (Or.inr ?_)
    rw [hcur]
    norm_num [TARGET_PRICE]

/-! Cooldown gate and dispatch (telegram_alerter.py). -/

/-- The mutable state of a `TelegramAlerter` instance: its
`last_alert_time` (a time instant in minutes, `None` before the first
successful dispatch).  The `tts_engine` field has no bearing on the
gate and is omitted. -/
structure AlerterState where
  last_alert_time : Option ℚ
deriving DecidableEq

/-- Embedding of `TelegramAlerter.can_send_alert` (telegram_alerter.py
lines 30-42): false when both channels are disabled, true when no
alert was ever sent, otherwise true iff the elapsed time since the
last alert reaches the cooldown selected by the urgency flag. -/
def can_send_alert (st : AlerterState) (now : ℚ) (is_urgent : Bool) : Bool :=
  if !ENABLE_VOICE_MESSAGES && !ENABLE_TEXT_ALERTS then false
  else
    match st.last_alert_time with
    | none => true
    | some t =>
        decide (now - t ≥ (if is_urgent then URGENT_ALERT_COOLDOWN_MINUTES
          else ALERT_COOLDOWN_MINUTES))

/-- Embedding of `TelegramAlerter.send_voice_alert` (telegram_alerter.py
lines 44-74): skipped (returning false, state unchanged) when voice is
disabled or the cooldown gate refuses; otherwise the network call
either succeeds (`delivered = true`, recording `now` as the last alert
time and returning true) or raises (`delivered = false`, state
unchanged, returning false). -/
def send_voice_alert (st : AlerterState) (now : ℚ)
    (is_urgent delivered : Bool) : Bool × AlerterState :=
  if !ENABLE_VOICE_MESSAGES || !can_send_alert st now is_urgent then (false, st)
  else if delivered then (true, ⟨some now⟩)
  else (false, st)

/-- Embedding of `TelegramAlerter.send_text_alert` (telegram_alerter.py
lines 101-121), with the same shape as the voice path: gate first,
then record the dispatch time only on a reported delivery success. -/
def send_text_alert (st : AlerterState) (now : ℚ)
    (is_urgent delivered : Bool) : Bool × AlerterState :=
  if !ENABLE_TEXT_ALERTS || !can_send_alert st now is_urgent then (false, st)
  else if delivered then (true, ⟨some now⟩)
  else (false, st)

/-- C5: the cooldown gate starts READY; after a success recorded at
`t`, a non-urgent check is refused on `[t, t + 5)` and allowed from
`t + 5`, an urgent check is refused on `[t, t + 1)` and allowed from
`t + 1`; a failed delivery leaves `last_alert_time` untouched on both
channels, and a successful text dispatch records its time. -/
theorem can_send_alert_spec :
    (∀ (now : ℚ) (u : Bool), can_send_alert ⟨none⟩ now u = true)
    ∧ (∀ t now : ℚ, t ≤ now → now < t + ALERT_COOLDOWN_MINUTES →
        can_send_alert ⟨some t⟩ now false = false)
    ∧ (∀ t now : ℚ, t + ALERT_COOLDOWN_MINUTES ≤ now →
        can_send_alert ⟨some t⟩ now false = true)
    ∧ (∀ t now : ℚ, t ≤ now → now < t + URGENT_ALERT_COOLDOWN_MINUTES →
        can_send_alert ⟨some t⟩ now true = false)
    ∧ (∀ t now : ℚ, t + URGENT_ALERT_COOLDOWN_MINUTES ≤ now →
        can_send_alert ⟨some t⟩ now true = true)
    ∧ (∀ (st : AlerterState) (now : ℚ) (u : Bool),
        (send_text_alert st now u false).2 = st)
    ∧ (∀ (st : AlerterState) (now : ℚ) (u : Bool),
        (send_voice_alert st now u false).2 = st)
    ∧ (∀ (st : AlerterState) (now : ℚ) (u : Bool),
        can_send_alert st now u = true →
        (send_text_alert st now u true).2 = ⟨some now⟩) := by
  refine ⟨?_, ?_, ?_, ?_, ?_, ?_, ?_, ?_⟩
  · intro now u
    rfl
  · intro t now _ h2
    rw [show ALERT_COOLDOWN_MINUTES = (5 : ℚ) from rfl] at h2
    simp [can_send_alert, ENABLE_VOICE_MESSAGES, ENABLE_TEXT_ALERTS,
      ALERT_COOLDOWN_MINUTES, decide_eq_false_iff_not]
    linarith
  · intro t now h1
    rw [show ALERT_COOLDOWN_MINUTES = (5 : ℚ) from rfl] at h1
    simp [can_send_alert, ENABLE_VOICE_MESSAGES, ENABLE_TEXT_ALERTS,
      ALERT_COOLDOWN_MINUTES, decide_eq_true_eq]
    linarith
  · intro t now _ h2
    rw [show URGENT_ALERT_COOLDOWN_MINUTES = (1 : ℚ) from rfl] at h2
    simp [can_send_alert, ENABLE_VOICE_MESSAGES, ENABLE_TEXT_ALERTS,
      URGENT_ALERT_COOLDOWN_MINUTES, decide_eq_false_iff_not]
    linarith
  · intro t now h1
    rw [show URGENT_ALERT_COOLDOWN_MINUTES = (1 : ℚ) from rfl] at h1
    simp [can_send_alert, ENABLE_VOICE_MESSAGES, ENABLE_TEXT_ALERTS,
      URGENT_ALERT_COOLDOWN_MINUTES, decide_eq_true_eq]
    linarith
  · intro st now u
    unfold send_text_alert
    split
    · rfl
    · rw [if_neg (by simp)]
  · intro st now u
    unfold send_voice_alert
    split
    · rfl
    · rw [if_neg (by simp)]
  · intro st now u hcs
    unfold send_text_alert
    rw [if_neg (by simp [ENABLE_TEXT_ALERTS, hcs]), if_pos rfl]

/-- C5 witness: concrete instants.  With the last success at `t = 0`,
a non-urgent check at 3 minutes is refused and one at 5 is allowed; an
urgent check at 1/2 minute is refused and one at 1 is allowed; with no
prior success a check at 0 is allowed; a failed text delivery at 2
leaves the state `⟨some 0⟩`, and a successful one from READY records
its time. -/
theorem can_send_alert_spec_witness :
    can_send_alert ⟨none⟩ 0 false = true
    ∧ can_send_alert ⟨some 0⟩ 3 false = false
    ∧ can_send_alert ⟨some 0⟩ 5 false = true
    ∧ can_send_alert ⟨some 0⟩ (1/2) true = false
    ∧ can_send_alert ⟨some 0⟩ 1 true = true
    ∧ (send_text_alert ⟨some 0⟩ 2 false false).2 = ⟨some 0⟩
    ∧ (send_voice_alert ⟨some 0⟩ 2 false false).2 = ⟨some 0⟩
    ∧ (send_text_alert ⟨none⟩ 2 false true).2 = ⟨some 2⟩ :=
  ⟨can_send_alert_spec.1 0 false,
    can_send_alert_spec.2.1 0 3 (by norm_num)
      (by rw [show ALERT_COOLDOWN_MINUTES = (5 : ℚ) from rfl]; norm_num),
    can_send_alert_spec.2.2.1 0 5
      (by rw [show ALERT_COOLDOWN_MINUTES = (5 : ℚ) from rfl]; norm_num),
    can_send_alert_spec.2.2.2.1 0 (1/2) (by norm_num)
      (by rw [show URGENT_ALERT_COOLDOWN_MINUTES = (1 : ℚ) from rfl]; norm_num),
    can_send_alert_spec.2.2.2.2.1 0 1
      (by rw [show URGENT_ALERT_COOLDOWN_MINUTES = (1 : ℚ) from rfl]; norm_num),
    can_send_alert_spec.2.2.2.2.2.1 ⟨some 0⟩ 2 false,
    can_send_alert_spec.2.2.2.2.2.2.1 ⟨some 0⟩ 2 false,
    can_send_alert_spec.2.2.2.2.2.2.2 ⟨none⟩ 2 false rfl⟩

/-- Embedding of `HypeBot.send_alert` (telegram_bot.py lines 174-199):
the voice alert is attempted first, then the text alert against the
alerter state left by the voice attempt; both share the urgency flag.
`now_voice` and `now_text` are the instants of the two `datetime.now()`
reads, voice first.  The result is (voice_sent, text_sent, final
alerter state). -/
def send_alert (st : AlerterState) (now_voice now_text : ℚ)
    (is_urgent voice_delivered text_delivered : Bool) :
    Bool × Bool × AlerterState :=
  let v := send_voice_alert st now_voice is_urgent voice_delivered
  let t := send_text_alert v.2 now_text is_urgent text_delivered
  (v.1, t.1, t.2)

lemma send_voice_alert_success (st : AlerterState) (now : ℚ)
    (is_urgent delivered : Bool)
    (h : (send_voice_alert st now is_urgent delivered).1 = true) :
    (send_voice_alert st now is_urgent delivered).2 = ⟨some now⟩ := by
  unfold send_voice_alert at h ⊢
  split at h
  · simp at h
  · split at h
    · rw [if_neg (by assumption), if_pos (by assumption)]
    · simp at h

lemma can_send_alert_just_sent (t0 now : ℚ) (is_urgent : Bool)
    (h : now < t0 + 1) :
    can_send_alert ⟨some t0⟩ now is_urgent = false := by
  cases is_urgent with
  | false =>
      simp [can_send_alert, ENABLE_VOICE_MESSAGES, ENABLE_TEXT_ALERTS,
        ALERT_COOLDOWN_MINUTES, decide_eq_false_iff_not]
      linarith
  | true =>
      simp [can_send_alert, ENABLE_VOICE_MESSAGES, ENABLE_TEXT_ALERTS,
        URGENT_ALERT_COOLDOWN_MINUTES, decide_eq_false_iff_not]
      linarith

/-- C10: in a single `send_alert` invocation with the text attempt
immediately after the voice attempt (less than the one-minute urgent
cooldown later, hence also less than the standard cooldown), a
successful voice dispatch records its instant in the shared
`last_alert_time` and the text dispatch is suppressed by the gate, so
at most one channel delivers. -/
theorem send_alert_voice_first_suppresses_text
    (st : AlerterState) (now_voice now_text : ℚ)
    (is_urgent voice_delivered text_delivered : Bool)
    (h1 : now_voice ≤ now_text)
    (h2 : now_text < now_voice + URGENT_ALERT_COOLDOWN_MINUTES) :
    (send_alert st now_voice now_text
        is_urgent voice_delivered text_delivered).1 = true →
      (send_alert st now_voice now_text
          is_urgent voice_delivered text_delivered).2.1 = false
      ∧ (send_alert st now_voice now_text
          is_urgent voice_delivered text_delivered).2.2 = ⟨some now_voice⟩ := by
  intro hv
  rw [show URGENT_ALERT_COOLDOWN_MINUTES = (1 : ℚ) from rfl] at h2
  unfold send_alert at hv ⊢
  simp only at hv ⊢
  have hstate := send_voice_alert_success st now_voice
    is_urgent voice_delivered hv
  rw [hstate]
  have hgate : can_send_alert ⟨some now_voice⟩ now_text is_urgent = false :=
    can_send_alert_just_sent now_voice now_text is_urgent h2
  unfold send_text_alert
  rw [if_pos (by rw [hgate]; rfl)]
  exact ⟨rfl, rfl⟩

/-- C10 witness: from the READY state, a non-urgent `send_alert` at
instants 0/0 with both deliveries succeeding sends voice, suppresses
text, and leaves `last_alert_time = some 0`. -/
theorem send_alert_voice_first_suppresses_text_witness :
    (send_alert ⟨none⟩ 0 0 false true true).1 = true
    ∧ (send_alert ⟨none⟩ 0 0 false true true).2.1 = false
    ∧ (send_alert ⟨none⟩ 0 0 false true true).2.2 = ⟨some 0⟩ := by
  have hv : (send_alert ⟨none⟩ 0 0 false true true).1 = true := by decide
  have h := send_alert_voice_first_suppresses_text ⟨none⟩ 0 0 false true true
    (le_refl 0)
    (by rw [show URGENT_ALERT_COOLDOWN_MINUTES = (1 : ℚ) from rfl]; norm_num)
    hv
  exact ⟨hv, h.1, h.2⟩

/-! The monitoring cycle (HypeBot.send_regular_update,
telegram_bot.py lines 201-234). -/

/-- The engine-relevant state of a `HypeBot` instance: the analyzer's
price history and the alerter's cooldown state. -/
structure BotState where
  price_history : List ℝ
  alerter : AlerterState

/-- Embedding of `HypeBot.send_regular_update` (telegram_bot.py lines
201-234): `fetched` is the result of
`hyperliquid_client.get_asset_price()` (`none` on a fetch failure).
On failure the method returns immediately — no history mutation, no
analysis, no alert dispatch.  On success the price is added, the
analysis computed, `send_alert` invoked only when the decision says to
alert (using the analyzer's defaults `TARGET_PRICE` and
`STANDARD_DEVIATIONS`), and the status message sent (no state
change). -/
noncomputable def send_regular_update (st : BotState) (fetched : Option ℝ)
    (now_voice now_text : ℚ) (voice_delivered text_delivered : Bool) :
    BotState :=
  match fetched with
  | none => st
  | some price =>
      let history := add_price st.price_history price
      let alerter :=
        if (should_alert TARGET_PRICE STANDARD_DEVIATIONS history).isSome then
          (send_alert st.alerter now_voice now_text
            (is_urgent_alert TARGET_PRICE history)
            voice_delivered text_delivered).2.2
        else st.alerter
      { price_history := history, alerter := alerter }

/-- C9: a monitoring cycle whose price fetch fails leaves the whole
engine state unchanged — the history (hence its length) is untouched,
no synthetic value is inserted, no alert is dispatched, and the
cooldown timestamp is exactly what it was. -/
theorem send_regular_update_fetch_failure
    (st : BotState) (now_voice now_text : ℚ)
    (voice_delivered text_delivered : Bool) :
    send_regular_update st none now_voice now_text
      voice_delivered text_delivered = st := rfl

end Hype
